import Mathlib

/-!
Verification of the context-aggregation and conversation-orchestration core of
the heatmap-analysis backend.

Modelling conventions:
* pandas floating-point cells are modelled with exact rationals (`ℚ`);
* a numeric cell that may be missing (pandas `NaN`) is modelled as
  `Option ℚ`, with `none` standing for a missing/NaN cell;
* `avg_total_users`, `lat` and `lng` are required fields of the data-cache
  interface (they key the ranking and carry the coordinates) and are modelled
  as always present; the remaining numeric cells may be missing;
* the 23 exported columns are always present in the cached frame (the export
  path indexes all of them unconditionally), so the column-presence guards of
  `get_context_summary` always take their true branch;
* `pandas.Series.sum()` skips missing cells (`skipna=True`, empty sum `0.0`);
  a product with a missing operand is itself missing.  This is captured by
  `skipnaSum` and `optMulW` below.
-/

namespace Heatmap

/-- One observation row of the data cache, as stored in the cached frame
(`data_exporter.py`): identifiers, WGS84 coordinates, the total-user count,
three dwell-time bucket counts, two gender percentages and ten age-bucket
percentages. -/
structure ObsRow where
  month : Int
  gx : Int
  gy : Int
  lat : ℚ
  lng : ℚ
  hour : Int
  day_type : String
  avg_total_users : ℚ
  avg_users_under_10min : Option ℚ
  avg_users_10_30min : Option ℚ
  avg_users_over_30min : Option ℚ
  sex_1 : Option ℚ
  sex_2 : Option ℚ
  age_1 : Option ℚ
  age_2 : Option ℚ
  age_3 : Option ℚ
  age_4 : Option ℚ
  age_5 : Option ℚ
  age_6 : Option ℚ
  age_7 : Option ℚ
  age_8 : Option ℚ
  age_9 : Option ℚ
  age_other : Option ℚ
deriving DecidableEq

/-- The data cache's keyed read interface:
`lookup_dict.get((month, hour, day_type))`, `none` when the key is absent. -/
def DataCache : Type := Int × Int × String → Option (List ObsRow)

/-- The pandas sum with `skipna=True`: missing cells are skipped, the empty sum
is `0`. -/
def skipnaSum : List (Option ℚ) → ℚ
  | [] => 0
  | none :: xs => skipnaSum xs
  | some x :: xs => x + skipnaSum xs

/-- Product of a (possibly missing) cell with a weight: NaN propagates
(`df[col] * weights` is NaN wherever the cell is NaN). -/
def optMulW : Option ℚ → ℚ → Option ℚ
  | none, _ => none
  | some a, w => some (a * w)

/-- Python expression `0.0 if isinstance(value, (int, float)) else None`
applied to a numeric cell flagged by `pd.isna`: a missing numeric cell becomes `0.0`. -/
def normalizeCell : Option ℚ → ℚ
  | none => 0
  | some v => v

/-- One record of `export_to_json`'s output: the 23 selected columns, with
every numeric cell defined (NaN entries have been replaced by `0.0`). -/
structure ExportRecord where
  month : Int
  gx : Int
  gy : Int
  lat : ℚ
  lng : ℚ
  hour : Int
  day_type : String
  avg_total_users : ℚ
  avg_users_under_10min : ℚ
  avg_users_10_30min : ℚ
  avg_users_over_30min : ℚ
  sex_1 : ℚ
  sex_2 : ℚ
  age_1 : ℚ
  age_2 : ℚ
  age_3 : ℚ
  age_4 : ℚ
  age_5 : ℚ
  age_6 : ℚ
  age_7 : ℚ
  age_8 : ℚ
  age_9 : ℚ
  age_other : ℚ
deriving DecidableEq

/-- The per-record normalization loop of `export_to_json`: every cell for
which `pd.isna(value)` holds is replaced by `0.0` (all 16 statistic columns
are numeric). -/
def exportRecord (r : ObsRow) : ExportRecord :=
  { month := r.month
    gx := r.gx
    gy := r.gy
    lat := r.lat
    lng := r.lng
    hour := r.hour
    day_type := r.day_type
    avg_total_users := r.avg_total_users
    avg_users_under_10min := normalizeCell r.avg_users_under_10min
    avg_users_10_30min := normalizeCell r.avg_users_10_30min
    avg_users_over_30min := normalizeCell r.avg_users_over_30min
    sex_1 := normalizeCell r.sex_1
    sex_2 := normalizeCell r.sex_2
    age_1 := normalizeCell r.age_1
    age_2 := normalizeCell r.age_2
    age_3 := normalizeCell r.age_3
    age_4 := normalizeCell r.age_4
    age_5 := normalizeCell r.age_5
    age_6 := normalizeCell r.age_6
    age_7 := normalizeCell r.age_7
    age_8 := normalizeCell r.age_8
    age_9 := normalizeCell r.age_9
    age_other := normalizeCell r.age_other }

/-- Embeds `DataExporter.export_to_json`: look the key up, return `[]` for a missing
or empty frame, otherwise project each row to its 23-column record. -/
def export_to_json (cache : DataCache) (month hour : Int) (day_type : String) :
    List ExportRecord :=
  match cache (month, hour, day_type) with
  | none => []
  | some rows => if rows.isEmpty then [] else rows.map exportRecord

/-- The `duration_distribution` component of a context summary. -/
structure DurationDist where
  under_10min : ℚ
  min_10_30 : ℚ
  over_30min : ℚ
deriving DecidableEq

/-- The `gender_distribution` component of a context summary. -/
structure GenderDist where
  male_pct : ℚ
  female_pct : ℚ
deriving DecidableEq

/-- The `age_distribution` component of a context summary. -/
structure AgeDist where
  age_1 : ℚ
  age_2 : ℚ
  age_3 : ℚ
  age_4 : ℚ
  age_5 : ℚ
  age_6 : ℚ
  age_7 : ℚ
  age_8 : ℚ
  age_9 : ℚ
  age_other : ℚ
deriving DecidableEq

/-- One `top_locations` entry.  `dwell_under_10min`, `dwell_10_30min` and
`dwell_over_30min` model the keys `under_10min`, `10_30min` and `over_30min`;
they are `float(row.get(col, 0))`, i.e. the raw cell of a present column, so a
missing (NaN) cell passes through unnormalized — hence `Option ℚ`. -/
structure TopLoc where
  lat : ℚ
  lon : ℚ
  total_users : ℚ
  dwell_under_10min : Option ℚ
  dwell_10_30min : Option ℚ
  dwell_over_30min : Option ℚ
deriving DecidableEq

/-- The `ContextSummary` record: the aggregate statistics returned by
`get_context_summary`. -/
structure ContextSummary where
  total_records : Nat
  total_users : ℚ
  duration_distribution : DurationDist
  gender_distribution : GenderDist
  age_distribution : AgeDist
  top_locations : List TopLoc
deriving DecidableEq

/-- The canonical all-zero summary returned for a missing or empty row set. -/
def zeroSummary : ContextSummary :=
  { total_records := 0
    total_users := 0
    duration_distribution := { under_10min := 0, min_10_30 := 0, over_30min := 0 }
    gender_distribution := { male_pct := 0, female_pct := 0 }
    age_distribution :=
      { age_1 := 0, age_2 := 0, age_3 := 0, age_4 := 0, age_5 := 0
        age_6 := 0, age_7 := 0, age_8 := 0, age_9 := 0, age_other := 0 }
    top_locations := [] }

/-- The weighted-percentage pattern
`float((filtered_df[col] * weights).sum() / total_users)` guarded by
`total_users > 0`, with `weights`, the values of the `avg_total_users` column:
each gender and age statistic instantiates this with its own column. -/
def weightedPct (rows : List ObsRow) (field : ObsRow → Option ℚ) : ℚ :=
  let total_users := (rows.map (·.avg_total_users)).sum
  let weights := rows.map (·.avg_total_users)
  if 0 < total_users then
    skipnaSum (List.zipWith optMulW (rows.map field) weights) / total_users
  else 0

/-- Ranking relation used to model `nlargest(5, avg_total_users)`
(default keep-first tie policy) on position-indexed rows: larger `avg_total_users` first,
ties broken by the original position.  A stable descending sort by the key is
exactly a sort by this relation. -/
def rankRel (p q : Nat × ObsRow) : Prop :=
  q.2.avg_total_users < p.2.avg_total_users ∨
    (p.2.avg_total_users = q.2.avg_total_users ∧ p.1 ≤ q.1)

instance : DecidableRel rankRel := fun p q =>
  inferInstanceAs (Decidable
    (q.2.avg_total_users < p.2.avg_total_users ∨
      (p.2.avg_total_users = q.2.avg_total_users ∧ p.1 ≤ q.1)))

instance : IsTotal (Nat × ObsRow) rankRel := by
  constructor
  intro p q
  rcases lt_trichotomy p.2.avg_total_users q.2.avg_total_users with h | h | h
  · exact Or.inr (Or.inl h)
  · rcases Nat.le_total p.1 q.1 with hn | hn
    · exact Or.inl (Or.inr ⟨h, hn⟩)
    · exact Or.inr (Or.inr ⟨h.symm, hn⟩)
  · exact Or.inl (Or.inl h)

instance : IsTrans (Nat × ObsRow) rankRel := by
  constructor
  intro p q r hpq hqr
  rcases hpq with h1 | ⟨he1, hn1⟩
  · rcases hqr with h2 | ⟨he2, _⟩
    · exact Or.inl (h2.trans h1)
    · exact Or.inl (he2 ▸ h1)
  · rcases hqr with h2 | ⟨he2, hn2⟩
    · exact Or.inl (he1 ▸ h2)
    · exact Or.inr ⟨he1.trans he2, hn1.trans hn2⟩

/-- Rows paired with their original position and stably sorted by descending
`avg_total_users` (the selection order of `nlargest(5, ...)` before
truncation). -/
def rankedRows (rows : List ObsRow) : List (Nat × ObsRow) :=
  List.insertionSort rankRel rows.enum

/-- One `top_locations` entry built from an indexed row: coordinates, the
`avg_total_users` key and the three dwell-time cells taken directly via
`row.get(col, 0)` on present columns (raw cell pass-through). -/
def topEntry (p : Nat × ObsRow) : TopLoc :=
  { lat := p.2.lat
    lon := p.2.lng
    total_users := p.2.avg_total_users
    dwell_under_10min := p.2.avg_users_under_10min
    dwell_10_30min := p.2.avg_users_10_30min
    dwell_over_30min := p.2.avg_users_over_30min }

/-- The `top_locations` list: the first five stably-descending-ranked rows, projected
to their entries. -/
def topLocations (rows : List ObsRow) : List TopLoc :=
  ((rankedRows rows).take 5).map topEntry

/-- The non-empty branch of `get_context_summary`: totals, skipna column sums
for the duration buckets, weighted gender/age percentages sharing the single
`avg_total_users` weight vector, and the top-five location ranking. -/
def computeSummary (rows : List ObsRow) : ContextSummary :=
  { total_records := rows.length
    total_users := (rows.map (·.avg_total_users)).sum
    duration_distribution :=
      { under_10min := skipnaSum (rows.map (·.avg_users_under_10min))
        min_10_30 := skipnaSum (rows.map (·.avg_users_10_30min))
        over_30min := skipnaSum (rows.map (·.avg_users_over_30min)) }
    gender_distribution :=
      { male_pct := weightedPct rows (·.sex_1)
        female_pct := weightedPct rows (·.sex_2) }
    age_distribution :=
      { age_1 := weightedPct rows (·.age_1)
        age_2 := weightedPct rows (·.age_2)
        age_3 := weightedPct rows (·.age_3)
        age_4 := weightedPct rows (·.age_4)
        age_5 := weightedPct rows (·.age_5)
        age_6 := weightedPct rows (·.age_6)
        age_7 := weightedPct rows (·.age_7)
        age_8 := weightedPct rows (·.age_8)
        age_9 := weightedPct rows (·.age_9)
        age_other := weightedPct rows (·.age_other) }
    top_locations := topLocations rows }

/-- Embeds `DataExporter.get_context_summary`: a missing or empty row set yields the
canonical zero summary, otherwise the aggregate is computed. -/
def get_context_summary (cache : DataCache) (month hour : Int)
    (day_type : String) : ContextSummary :=
  match cache (month, hour, day_type) with
  | none => zeroSummary
  | some rows => if rows.isEmpty then zeroSummary else computeSummary rows

/-! ## Conversation orchestration (`ollama_service.py`) -/

/-- One message of the dispatched chat sequence (`{"role": ..., "content": ...}`). -/
structure ChatMsg where
  role : String
  content : String
deriving DecidableEq

/-- The message-assembly step of `OllamaService.generate_response`:
`[{"role": "system", ...}]`, extended with `history[-20:]` (an empty history
extends with nothing, which also covers the `if history:` guard), with the new
user turn appended last.  `history[-20:]` is `drop (length - 20)`, which is
the whole list when it has at most 20 turns. -/
def assembleMessages (systemPrompt userMessage : String)
    (history : List ChatMsg) : List ChatMsg :=
  let messages : List ChatMsg := [{ role := "system", content := systemPrompt }]
  let messages := messages ++ history.drop (history.length - 20)
  messages ++ [{ role := "user", content := userMessage }]

/-- The two response shapes returned by the inference engine's chat call: a
structured object whose counters exist iff `hasattr` succeeds, or a nested
mapping whose counters exist iff the key is present (`.get(key, 0)`). -/
inductive EngineChatResponse where
  | obj (content : String) (eval_count : Option Nat) (prompt_eval_count : Option Nat)
  | dict (content : String) (eval_count : Option Nat) (prompt_eval_count : Option Nat)
deriving DecidableEq

/-- The normalized result of `generate_response`: response text, model id,
token count. -/
structure InferenceResult where
  response : String
  model : String
  tokens_used : Nat
deriving DecidableEq

/-- Response-shape normalization of `generate_response`: on the structured
shape each counter is read when the accessor exists and `0` otherwise, and on
the mapping shape `.get(key, 0)` defaults each absent counter to `0`;
`tokens_used` is their sum in both branches. -/
def normalizeResponse (model : String) : EngineChatResponse → InferenceResult
  | .obj c e p =>
      { response := c, model := model, tokens_used := e.getD 0 + p.getD 0 }
  | .dict c e p =>
      { response := c, model := model, tokens_used := e.getD 0 + p.getD 0 }

/-- The generation counter (`eval_count`) carried by a response, when it is
present at all. -/
def engineEvalCount : EngineChatResponse → Option Nat
  | .obj _ e _ => e
  | .dict _ e _ => e

/-- The prompt counter (`prompt_eval_count`) carried by a response, when it is
present at all. -/
def enginePromptCount : EngineChatResponse → Option Nat
  | .obj _ _ p => p
  | .dict _ _ p => p

/-- The text content carried by a response. -/
def engineContent : EngineChatResponse → String
  | .obj c _ _ => c
  | .dict c _ _ => c

/-! ## Health probe (`OllamaService.check_health`) -/

/-- The two shapes of the model manifest returned by `client.list()`: the new
client's structured list (names read off the `model` accessor) or the old
client's list of mappings (name = the `name` entry, falling back to the `model` entry, then to the empty string). -/
inductive ModelManifest where
  | listResp (models : List String)
  | dictResp (entries : List (Option String × Option String))
deriving DecidableEq

/-- Model names extracted from a manifest, exactly as `check_health` reads
them in each shape. -/
def manifestNames : ModelManifest → List String
  | .listResp ms => ms
  | .dictResp es => es.map (fun m => m.1.getD (m.2.getD ""))

/-- The health report built by `check_health`. -/
structure HealthReport where
  status : String
  model_loaded : Bool
  available_models : List String
  error : Option String
deriving DecidableEq

/-- Embeds `OllamaService.check_health`.  The manifest query's outcome is passed in
explicitly: `.error e` models the `except Exception` branch (any transport
failure is caught there, so the function never raises), `.ok manifest` the
successful query. -/
def check_health (host model : String) :
    Except String ModelManifest → HealthReport
  | .error e =>
      { status := "disconnected"
        model_loaded := false
        available_models := []
        error := some ("Cannot connect to Ollama at " ++ host ++ ": " ++ e) }
  | .ok manifest =>
      let model_names := manifestNames manifest
      let model_loaded : Bool := model ∈ model_names
      { status := if model_loaded then "connected" else "degraded"
        model_loaded := model_loaded
        available_models := model_names
        error :=
          if model_loaded then none
          else some ("Model " ++ model ++ " not found. Run: ollama pull " ++ model) }

/-! ## Request validation (`api/models/chat.py`) -/

/-- Embeds `DataContext.validate_month`: the month field validator accepts exactly
`100000 <= v <= 999912` and raises a `ValueError` (surfaced as a pydantic
`ValidationError`) otherwise. -/
def validate_month (v : Int) : Except String Int :=
  if 100000 ≤ v ∧ v ≤ 999912 then .ok v
  else .error "Month must be in YYYYMM format (e.g., 202412)"

/-- Whether the month validator accepts a value. -/
def acceptsMonth (v : Int) : Bool :=
  match validate_month v with
  | .ok _ => true
  | .error _ => false

/-- The `hour` field constraint of `DataContext` (`ge=0, le=23`). -/
def acceptsHour (h : Int) : Bool :=
  decide (0 ≤ h ∧ h ≤ 23)

/-- The `day_type` field of `DataContext` is the literal type
`Literal["平日", "假日"]`. -/
def acceptsDayType (d : String) : Bool :=
  d == "平日" || d == "假日"

/-- The `DataContext` request model. -/
structure DataContext where
  month : Int
  hour : Int
  day_type : String
deriving DecidableEq

/-- Validation of a whole `DataContext` (month validator, hour bounds,
day-type literal). -/
def validDataContext (c : DataContext) : Bool :=
  acceptsMonth c.month && acceptsHour c.hour && acceptsDayType c.day_type

/-- One history turn of a chat request (`ChatMessage`). -/
structure ChatMessage where
  role : String
  content : String
  timestamp : Option Int
deriving DecidableEq

/-- The `role` literal type `Literal["user", "assistant", "system"]`. -/
def validRole (r : String) : Bool :=
  r == "user" || r == "assistant" || r == "system"

/-- Validation of one history turn: role literal and
`content: min_length=1, max_length=10000`. -/
def validChatMessage (m : ChatMessage) : Bool :=
  validRole m.role && decide (1 ≤ m.content.length) &&
    decide (m.content.length ≤ 10000)

/-- The `ChatRequest` body. -/
structure ChatRequest where
  message : String
  context : DataContext
  history : List ChatMessage
deriving DecidableEq

/-- Validation of a chat request at the pydantic boundary:
`message: min_length=1, max_length=500`, a valid context, and
`history: max_length=20` with every turn valid. -/
def validChatRequest (r : ChatRequest) : Bool :=
  decide (1 ≤ r.message.length) && decide (r.message.length ≤ 500) &&
    validDataContext r.context && decide (r.history.length ≤ 20) &&
    r.history.all validChatMessage

/-! ## Helper lemmas -/

/-- A skipna sum equals the plain sum of the `0`-defaulted cells. -/
theorem skipnaSum_eq_sum_getD (xs : List (Option ℚ)) :
    skipnaSum xs = (xs.map (fun x => x.getD 0)).sum := by
  induction xs with
  | nil => rfl
  | cons x xs ih => cases x <;> simp [skipnaSum, ih]

/-- The skipna sum of NaN-propagating products equals the plain sum of the
products of the `0`-defaulted cells with the weights. -/
theorem skipnaSum_zipWith_optMulW (xs : List (Option ℚ)) (ws : List ℚ) :
    skipnaSum (List.zipWith optMulW xs ws) =
      (List.zipWith (fun x w => x.getD 0 * w) xs ws).sum := by
  induction xs generalizing ws with
  | nil => rfl
  | cons x xs ih =>
    cases ws with
    | nil => rfl
    | cons w ws => cases x <;> simp [optMulW, skipnaSum, ih]

/-- Zipping two projections of the same list is a single map. -/
theorem zipWith_map_same {α β γ δ : Type _} (f : β → γ → δ) (g : α → β)
    (h : α → γ) : ∀ l : List α,
    List.zipWith f (l.map g) (l.map h) = l.map (fun x => f (g x) (h x))
  | [] => rfl
  | a :: l => by simp [zipWith_map_same f g h l]

/-- Mapped form of `skipnaSum_zipWith_optMulW`. -/
theorem skipnaSum_map_optMulW {α : Type _} (l : List α) (f : α → Option ℚ)
    (g : α → ℚ) :
    skipnaSum (l.map (fun x => optMulW (f x) (g x))) =
      (l.map (fun x => (f x).getD 0 * g x)).sum := by
  have h1 := skipnaSum_zipWith_optMulW (l.map f) (l.map g)
  rwa [zipWith_map_same, zipWith_map_same] at h1

/-- Closed form of the weighted-percentage pattern: the claimed formula
`Σ(field_i × total_users_i) / total_users` (missing cells defaulting to `0`)
when `total_users > 0`, and `0` otherwise. -/
theorem weightedPct_eq (rows : List ObsRow) (field : ObsRow → Option ℚ) :
    weightedPct rows field =
      if 0 < (rows.map (·.avg_total_users)).sum then
        (rows.map (fun r => (field r).getD 0 * r.avg_total_users)).sum /
          (rows.map (·.avg_total_users)).sum
      else 0 := by
  unfold weightedPct
  simp only [zipWith_map_same, skipnaSum_map_optMulW]

/-- Pointwise addition of three mapped sums. -/
theorem sum_map_add3 {α : Type _} (l : List α) (f g h : α → ℚ) :
    (l.map f).sum + (l.map g).sum + (l.map h).sum
      = (l.map (fun x => f x + g x + h x)).sum := by
  induction l with
  | nil => simp
  | cons a l ih =>
    simp only [List.map_cons, List.sum_cons]
    linarith

/-- For a non-empty row set, `get_context_summary` takes the aggregation
branch. -/
theorem get_context_summary_some (rows : List ObsRow) (month hour : Int)
    (day_type : String) (h : rows ≠ []) :
    get_context_summary (fun _ => some rows) month hour day_type =
      computeSummary rows := by
  have he : rows.isEmpty = false := by
    cases rows with
    | nil => exact absurd rfl h
    | cons a l => rfl
  simp [get_context_summary, he]

/-- Lemma: `normalizeCell` is the `0`-default of the cell. -/
theorem normalizeCell_eq_getD (x : Option ℚ) : normalizeCell x = x.getD 0 := by
  cases x <;> rfl

/-- The spec's wording of a weighted percentage, for comparison with the
implementation: `Σ(field_i × total_users_i) / total_users` over the
`0`-defaulted cells, with the single per-row `total_users` weight vector. -/
def specWeightedAvg (rows : List ObsRow) (field : ObsRow → Option ℚ) : ℚ :=
  (rows.map (fun r => (field r).getD 0 * r.avg_total_users)).sum /
    (rows.map (·.avg_total_users)).sum

/-- With positive total the implementation's weighted percentage is the
spec's formula. -/
theorem weightedPct_pos (rows : List ObsRow) (field : ObsRow → Option ℚ)
    (h : 0 < (rows.map (·.avg_total_users)).sum) :
    weightedPct rows field = specWeightedAvg rows field := by
  rw [weightedPct_eq, if_pos h]; rfl

/-- With non-positive total the implementation's weighted percentage is
exactly `0`. -/
theorem weightedPct_nonpos (rows : List ObsRow) (field : ObsRow → Option ℚ)
    (h : ¬ 0 < (rows.map (·.avg_total_users)).sum) :
    weightedPct rows field = 0 := by
  rw [weightedPct_eq, if_neg h]

/-- Lemma: `top_locations` selects `min 5 total_records` entries. -/
theorem topLocations_length (rows : List ObsRow) :
    (topLocations rows).length = min 5 rows.length := by
  unfold topLocations rankedRows
  rw [List.length_map, List.length_take,
    (List.perm_insertionSort rankRel rows.enum).length_eq, List.enum_length]

/-- The ranked row list is pairwise strictly ordered: strictly larger
`avg_total_users` first, and on equal `avg_total_users` the original position
strictly increases (stability). -/
theorem rankedRows_pairwise (rows : List ObsRow) :
    List.Pairwise (fun p q : Nat × ObsRow =>
      q.2.avg_total_users < p.2.avg_total_users ∨
        (p.2.avg_total_users = q.2.avg_total_users ∧ p.1 < q.1))
      (rankedRows rows) := by
  have hsorted : List.Pairwise rankRel (rankedRows rows) :=
    List.sorted_insertionSort rankRel rows.enum
  have hperm : List.Perm (rankedRows rows) rows.enum :=
    List.perm_insertionSort rankRel rows.enum
  have hnodup : ((rankedRows rows).map Prod.fst).Nodup := by
    have h1 : List.Perm ((rankedRows rows).map Prod.fst)
        (rows.enum.map Prod.fst) := hperm.map Prod.fst
    rw [h1.nodup_iff, List.enum_map_fst]
    exact List.nodup_range _
  have hne : List.Pairwise (fun p q : Nat × ObsRow => p.1 ≠ q.1)
      (rankedRows rows) := List.pairwise_map.mp hnodup
  refine (hsorted.and hne).imp ?_
  rintro a b ⟨hr | ⟨heq, hle⟩, hab⟩
  · exact Or.inl hr
  · exact Or.inr ⟨heq, lt_of_le_of_ne hle hab⟩

/-! ## Claim theorems -/

/-- C3: for every FilterKey whose lookup yields no rows (missing key or empty
row set), `get_context_summary` returns, without failing, the canonical zero
summary: `total_records = 0`, `total_users = 0.0`, all three duration values
`0.0`, both gender values `0.0`, all ten age values `0.0`, and
`top_locations = []`.  (The embedding is a total function, so no failure is
possible.) -/
theorem aggregate_empty_zero_summary (cache : DataCache) (month hour : Int)
    (day_type : String)
    (h : cache (month, hour, day_type) = none ∨
      cache (month, hour, day_type) = some []) :
    (get_context_summary cache month hour day_type).total_records = 0 ∧
    (get_context_summary cache month hour day_type).total_users = 0 ∧
    (get_context_summary cache month hour day_type).duration_distribution =
      { under_10min := 0, min_10_30 := 0, over_30min := 0 } ∧
    (get_context_summary cache month hour day_type).gender_distribution =
      { male_pct := 0, female_pct := 0 } ∧
    (get_context_summary cache month hour day_type).age_distribution =
      { age_1 := 0, age_2 := 0, age_3 := 0, age_4 := 0, age_5 := 0
        age_6 := 0, age_7 := 0, age_8 := 0, age_9 := 0, age_other := 0 } ∧
    (get_context_summary cache month hour day_type).top_locations = [] := by
  rcases h with h | h <;>
    simp [get_context_summary, h, zeroSummary]

/-- Witness for C3 at the concrete cache with no entry for the key. -/
theorem aggregate_empty_zero_summary_witness :
    ((fun _ => none : DataCache) (202412, 8, "平日") = none) ∧
    (get_context_summary (fun _ => none) 202412 8 "平日").top_locations = [] :=
  ⟨rfl,
    (aggregate_empty_zero_summary (fun _ => none) 202412 8 "平日"
      (Or.inl rfl)).2.2.2.2.2⟩

/-- C5 (amended): the dispatched message list is exactly the system
instruction, followed by the most recent 20 history turns in their original
oldest-first order (truncation drops only the oldest turns), followed by the
new user turn as the last element; the list never exceeds 22 messages
(1 system + at most 20 history turns + 1 new user turn).  The claim's stated
bound of 21 is off by one, see the counterexample. -/
theorem assembleMessages_spec (systemPrompt userMessage : String)
    (history : List ChatMsg) :
    assembleMessages systemPrompt userMessage history =
      { role := "system", content := systemPrompt } ::
        (history.drop (history.length - 20) ++
          [{ role := "user", content := userMessage }]) ∧
    history.drop (history.length - 20) <:+ history ∧
    (history.drop (history.length - 20)).length = min 20 history.length ∧
    (assembleMessages systemPrompt userMessage history).length =
      min 20 history.length + 2 ∧
    (assembleMessages systemPrompt userMessage history).length ≤ 22 ∧
    (assembleMessages systemPrompt userMessage history).getLast? =
      some { role := "user", content := userMessage } := by
  refine ⟨rfl, List.drop_suffix _ _, ?_, ?_, ?_, ?_⟩
  · rw [List.length_drop]; omega
  · simp only [assembleMessages, List.length_append, List.length_cons,
      List.length_drop, List.length_nil]
    omega
  · simp only [assembleMessages, List.length_append, List.length_cons,
      List.length_drop, List.length_nil]
    omega
  · show ({ role := "system", content := systemPrompt } ::
        (history.drop (history.length - 20) ++
          [{ role := "user", content := userMessage }]) : List ChatMsg).getLast? =
      some { role := "user", content := userMessage }
    rw [← List.cons_append, List.getLast?_concat]

/-- C5 counterexample: with exactly 20 supplied history turns the dispatched
list already has 22 messages, refuting the claimed hard bound of 21. -/
theorem assembleMessages_exceeds_21 :
    21 < (assembleMessages "s" "u"
      (List.replicate 20 { role := "user", content := "m" })).length := by
  decide

/-- C7: for either response shape, normalization produces one result whose
`tokens_used` equals the generation count plus the prompt count, each counter
treated as `0` when absent; the content and the configured model id are
carried over. -/
theorem normalizeResponse_tokens (model : String) (r : EngineChatResponse) :
    (normalizeResponse model r).tokens_used =
      (engineEvalCount r).getD 0 + (enginePromptCount r).getD 0 ∧
    (normalizeResponse model r).response = engineContent r ∧
    (normalizeResponse model r).model = model := by
  cases r <;> exact ⟨rfl, rfl, rfl⟩

/-- C8: `check_health` is a total function of the manifest query's outcome
(every transport failure is caught and passed in as `.error`, so the probe
never raises); it reports `connected` exactly when the configured model is in
the manifest, `degraded` exactly when the engine answered but the model is
absent, and on a failed query `disconnected` with `model_loaded = false` and
a populated error message. -/
theorem check_health_spec (host model : String) :
    (∀ e : String,
      (check_health host model (.error e)).status = "disconnected" ∧
      (check_health host model (.error e)).model_loaded = false ∧
      (check_health host model (.error e)).error =
        some ("Cannot connect to Ollama at " ++ host ++ ": " ++ e)) ∧
    (∀ manifest : ModelManifest,
      ((check_health host model (.ok manifest)).status = "connected" ↔
        model ∈ manifestNames manifest) ∧
      ((check_health host model (.ok manifest)).status = "degraded" ↔
        model ∉ manifestNames manifest) ∧
      (check_health host model (.ok manifest)).model_loaded =
        decide (model ∈ manifestNames manifest) ∧
      ((check_health host model (.ok manifest)).error.isSome = true ↔
        model ∉ manifestNames manifest)) := by
  refine ⟨fun e => ⟨rfl, rfl, rfl⟩, fun manifest => ?_⟩
  by_cases h : model ∈ manifestNames manifest <;>
    simp [check_health, h]

/-- C9 (amended): the month validator accepts exactly the values in
[100000, 999912] — the claim's lower bound 100001 is off by one, see the
counterexample — and the hour bound checks accept exactly [0, 23]. -/
theorem month_hour_validation_bounds (v h : Int) :
    (acceptsMonth v = true ↔ (100000 ≤ v ∧ v ≤ 999912)) ∧
    (acceptsHour h = true ↔ (0 ≤ h ∧ h ≤ 23)) := by
  constructor
  · by_cases hc : 100000 ≤ v ∧ v ≤ 999912 <;>
      simp [acceptsMonth, validate_month, hc]
  · simp [acceptsHour]

/-- C9 counterexample: month 100000 is accepted by the validator although the
claim says every value outside [100001, 999912] is rejected. -/
theorem validate_month_accepts_100000 :
    acceptsMonth 100000 = true ∧ (100000 : Int) < 100001 := by decide

/-- C10: a chat request accepted at the pydantic validation boundary has a
user message of 1 to 500 characters, at most 20 history turns, and every
history turn has a role among user/assistant/system and content of 1 to
10000 characters.  (Parsing happens before the route handler touches the
cache or the engine.) -/
theorem chatRequest_validation_bounds (r : ChatRequest)
    (h : validChatRequest r = true) :
    1 ≤ r.message.length ∧ r.message.length ≤ 500 ∧
    r.history.length ≤ 20 ∧
    ∀ m ∈ r.history,
      (m.role = "user" ∨ m.role = "assistant" ∨ m.role = "system") ∧
      1 ≤ m.content.length ∧ m.content.length ≤ 10000 := by
  simp only [validChatRequest, Bool.and_eq_true, decide_eq_true_eq,
    List.all_eq_true] at h
  obtain ⟨⟨⟨⟨h1, h2⟩, _⟩, h4⟩, h5⟩ := h
  refine ⟨h1, h2, h4, fun m hm => ?_⟩
  have hv := h5 m hm
  simp only [validChatMessage, validRole, Bool.and_eq_true, Bool.or_eq_true,
    beq_iff_eq, decide_eq_true_eq] at hv
  tauto

/-- Composed-map form of `skipnaSum_eq_sum_getD`. -/
theorem skipnaSum_map_getD {α : Type _} (l : List α) (f : α → Option ℚ) :
    skipnaSum (l.map f) = (l.map (fun x => (f x).getD 0)).sum := by
  rw [skipnaSum_eq_sum_getD, List.map_map]
  rfl

/-- C1: for every non-empty row set, each of the two gender percentages and
ten age percentages is the weighted average
`Σ(field_i × total_users_i) / total_users` over the single per-row
`total_users` weight vector whenever `total_users > 0`, and is exactly `0`
when `total_users = 0`.  The embedding is a total function into `ℚ`, so no
undefined or NaN value can be produced. -/
theorem aggregate_weighted_percentages (rows : List ObsRow) (month hour : Int)
    (day_type : String) (hne : rows ≠ []) :
    (get_context_summary (fun _ => some rows) month hour day_type).total_users
        = (rows.map (·.avg_total_users)).sum ∧
    (0 < (rows.map (·.avg_total_users)).sum →
      (get_context_summary (fun _ => some rows) month hour
            day_type).gender_distribution.male_pct
          = specWeightedAvg rows (·.sex_1) ∧
      (get_context_summary (fun _ => some rows) month hour
            day_type).gender_distribution.female_pct
          = specWeightedAvg rows (·.sex_2) ∧
      (get_context_summary (fun _ => some rows) month hour
            day_type).age_distribution.age_1 = specWeightedAvg rows (·.age_1) ∧
      (get_context_summary (fun _ => some rows) month hour
            day_type).age_distribution.age_2 = specWeightedAvg rows (·.age_2) ∧
      (get_context_summary (fun _ => some rows) month hour
            day_type).age_distribution.age_3 = specWeightedAvg rows (·.age_3) ∧
      (get_context_summary (fun _ => some rows) month hour
            day_type).age_distribution.age_4 = specWeightedAvg rows (·.age_4) ∧
      (get_context_summary (fun _ => some rows) month hour
            day_type).age_distribution.age_5 = specWeightedAvg rows (·.age_5) ∧
      (get_context_summary (fun _ => some rows) month hour
            day_type).age_distribution.age_6 = specWeightedAvg rows (·.age_6) ∧
      (get_context_summary (fun _ => some rows) month hour
            day_type).age_distribution.age_7 = specWeightedAvg rows (·.age_7) ∧
      (get_context_summary (fun _ => some rows) month hour
            day_type).age_distribution.age_8 = specWeightedAvg rows (·.age_8) ∧
      (get_context_summary (fun _ => some rows) month hour
            day_type).age_distribution.age_9 = specWeightedAvg rows (·.age_9) ∧
      (get_context_summary (fun _ => some rows) month hour
            day_type).age_distribution.age_other
          = specWeightedAvg rows (·.age_other)) ∧
    ((rows.map (·.avg_total_users)).sum = 0 →
      (get_context_summary (fun _ => some rows) month hour
            day_type).gender_distribution.male_pct = 0 ∧
      (get_context_summary (fun _ => some rows) month hour
            day_type).gender_distribution.female_pct = 0 ∧
      (get_context_summary (fun _ => some rows) month hour
            day_type).age_distribution.age_1 = 0 ∧
      (get_context_summary (fun _ => some rows) month hour
            day_type).age_distribution.age_2 = 0 ∧
      (get_context_summary (fun _ => some rows) month hour
            day_type).age_distribution.age_3 = 0 ∧
      (get_context_summary (fun _ => some rows) month hour
            day_type).age_distribution.age_4 = 0 ∧
      (get_context_summary (fun _ => some rows) month hour
            day_type).age_distribution.age_5 = 0 ∧
      (get_context_summary (fun _ => some rows) month hour
            day_type).age_distribution.age_6 = 0 ∧
      (get_context_summary (fun _ => some rows) month hour
            day_type).age_distribution.age_7 = 0 ∧
      (get_context_summary (fun _ => some rows) month hour
            day_type).age_distribution.age_8 = 0 ∧
      (get_context_summary (fun _ => some rows) month hour
            day_type).age_distribution.age_9 = 0 ∧
      (get_context_summary (fun _ => some rows) month hour
            day_type).age_distribution.age_other = 0) := by
  rw [get_context_summary_some rows month hour day_type hne]
  refine ⟨rfl, fun hpos => ?_, fun hz => ?_⟩
  · exact ⟨weightedPct_pos _ _ hpos, weightedPct_pos _ _ hpos,
      weightedPct_pos _ _ hpos, weightedPct_pos _ _ hpos,
      weightedPct_pos _ _ hpos, weightedPct_pos _ _ hpos,
      weightedPct_pos _ _ hpos, weightedPct_pos _ _ hpos,
      weightedPct_pos _ _ hpos, weightedPct_pos _ _ hpos,
      weightedPct_pos _ _ hpos, weightedPct_pos _ _ hpos⟩
  · have hnp : ¬ 0 < (rows.map (·.avg_total_users)).sum := by
      rw [hz]; exact lt_irrefl 0
    exact ⟨weightedPct_nonpos _ _ hnp, weightedPct_nonpos _ _ hnp,
      weightedPct_nonpos _ _ hnp, weightedPct_nonpos _ _ hnp,
      weightedPct_nonpos _ _ hnp, weightedPct_nonpos _ _ hnp,
      weightedPct_nonpos _ _ hnp, weightedPct_nonpos _ _ hnp,
      weightedPct_nonpos _ _ hnp, weightedPct_nonpos _ _ hnp,
      weightedPct_nonpos _ _ hnp, weightedPct_nonpos _ _ hnp⟩

/-- C2: for every row set, `top_locations` has length `min 5 total_records`,
equals the first five stably ranked rows, and the ranked prefix is pairwise
ordered by strictly descending `avg_total_users` with ties in strictly
increasing original position (original order preserved on ties). -/
theorem aggregate_top_locations_ranking (rows : List ObsRow)
    (month hour : Int) (day_type : String) :
    (get_context_summary (fun _ => some rows) month hour
        day_type).top_locations.length = min 5 rows.length ∧
    (get_context_summary (fun _ => some rows) month hour
        day_type).top_locations = ((rankedRows rows).take 5).map topEntry ∧
    List.Pairwise (fun p q : Nat × ObsRow =>
      q.2.avg_total_users < p.2.avg_total_users ∨
        (p.2.avg_total_users = q.2.avg_total_users ∧ p.1 < q.1))
      ((rankedRows rows).take 5) := by
  refine ⟨?_, ?_, (rankedRows_pairwise rows).sublist (List.take_sublist 5 _)⟩
  · cases rows with
    | nil => rfl
    | cons a l =>
      rw [get_context_summary_some _ _ _ _ (List.cons_ne_nil a l)]
      exact topLocations_length (a :: l)
  · cases rows with
    | nil => rfl
    | cons a l =>
      rw [get_context_summary_some _ _ _ _ (List.cons_ne_nil a l)]
      rfl

/-- C6: for every non-empty row set in which each row's three dwell-time
bucket counts (missing cells defaulting to `0`) sum to that row's
`total_users`, the three `duration_distribution` components sum exactly to
`total_users` (exact rational arithmetic) whenever `total_users > 0`. -/
theorem duration_sums_to_total (rows : List ObsRow) (month hour : Int)
    (day_type : String)
    (hrow : ∀ r ∈ rows,
      (r.avg_users_under_10min).getD 0 + (r.avg_users_10_30min).getD 0 +
        (r.avg_users_over_30min).getD 0 = r.avg_total_users)
    (hpos : 0 < (get_context_summary (fun _ => some rows) month hour
      day_type).total_users) :
    (get_context_summary (fun _ => some rows) month hour
        day_type).duration_distribution.under_10min +
      (get_context_summary (fun _ => some rows) month hour
        day_type).duration_distribution.min_10_30 +
      (get_context_summary (fun _ => some rows) month hour
        day_type).duration_distribution.over_30min =
      (get_context_summary (fun _ => some rows) month hour
        day_type).total_users := by
  cases rows with
  | nil => exact absurd hpos (by simp [get_context_summary, zeroSummary])
  | cons a l =>
    rw [get_context_summary_some _ _ _ _ (List.cons_ne_nil a l)]
    show skipnaSum ((a :: l).map (·.avg_users_under_10min)) +
        skipnaSum ((a :: l).map (·.avg_users_10_30min)) +
        skipnaSum ((a :: l).map (·.avg_users_over_30min)) =
      ((a :: l).map (·.avg_total_users)).sum
    rw [skipnaSum_map_getD, skipnaSum_map_getD, skipnaSum_map_getD,
      sum_map_add3]
    exact congrArg List.sum (List.map_congr_left fun r hr => hrow r hr)

/-- C4 (amended): every missing numeric cell is normalized to `0.0` in
`export_to_json`'s output, and missing cells contribute `0` to
`get_context_summary`'s total and duration sums (its weighted numerators
default missing cells to `0` likewise, see the weighted-percentage theorems);
however, the dwell-time sub-metrics of each `top_locations` entry are taken
directly from the row's cells, so a missing (NaN) cell is surfaced as NaN in
the entry rather than normalized to `0` — only an absent column would default
to `0`.  The original claim that no NaN ever appears in the outputs is
refuted by the counterexample. -/
theorem normalization_amended (rows : List ObsRow) (r : ObsRow)
    (month hour : Int) (day_type : String) (hne : rows ≠ []) :
    export_to_json (fun _ => some rows) month hour day_type
        = rows.map exportRecord ∧
    (exportRecord r).avg_users_under_10min = (r.avg_users_under_10min).getD 0 ∧
    (exportRecord r).avg_users_10_30min = (r.avg_users_10_30min).getD 0 ∧
    (exportRecord r).avg_users_over_30min = (r.avg_users_over_30min).getD 0 ∧
    (exportRecord r).sex_1 = (r.sex_1).getD 0 ∧
    (exportRecord r).sex_2 = (r.sex_2).getD 0 ∧
    (exportRecord r).age_1 = (r.age_1).getD 0 ∧
    (exportRecord r).age_2 = (r.age_2).getD 0 ∧
    (exportRecord r).age_3 = (r.age_3).getD 0 ∧
    (exportRecord r).age_4 = (r.age_4).getD 0 ∧
    (exportRecord r).age_5 = (r.age_5).getD 0 ∧
    (exportRecord r).age_6 = (r.age_6).getD 0 ∧
    (exportRecord r).age_7 = (r.age_7).getD 0 ∧
    (exportRecord r).age_8 = (r.age_8).getD 0 ∧
    (exportRecord r).age_9 = (r.age_9).getD 0 ∧
    (exportRecord r).age_other = (r.age_other).getD 0 ∧
    (get_context_summary (fun _ => some rows) month hour day_type).total_users
        = (rows.map (·.avg_total_users)).sum ∧
    (get_context_summary (fun _ => some rows) month hour
        day_type).duration_distribution.under_10min
      = (rows.map (fun x => (x.avg_users_under_10min).getD 0)).sum ∧
    (get_context_summary (fun _ => some rows) month hour
        day_type).duration_distribution.min_10_30
      = (rows.map (fun x => (x.avg_users_10_30min).getD 0)).sum ∧
    (get_context_summary (fun _ => some rows) month hour
        day_type).duration_distribution.over_30min
      = (rows.map (fun x => (x.avg_users_over_30min).getD 0)).sum ∧
    (get_context_summary (fun _ => some rows) month hour
        day_type).top_locations.map (·.dwell_under_10min)
      = ((rankedRows rows).take 5).map (fun p => p.2.avg_users_under_10min) ∧
    (get_context_summary (fun _ => some rows) month hour
        day_type).top_locations.map (·.dwell_10_30min)
      = ((rankedRows rows).take 5).map (fun p => p.2.avg_users_10_30min) ∧
    (get_context_summary (fun _ => some rows) month hour
        day_type).top_locations.map (·.dwell_over_30min)
      = ((rankedRows rows).take 5).map (fun p => p.2.avg_users_over_30min) := by
  have he : rows.isEmpty = false := by
    cases rows with
    | nil => exact absurd rfl hne
    | cons a l => rfl
  rw [get_context_summary_some rows month hour day_type hne]
  refine ⟨by simp [export_to_json, he], normalizeCell_eq_getD _,
    normalizeCell_eq_getD _, normalizeCell_eq_getD _, normalizeCell_eq_getD _,
    normalizeCell_eq_getD _, normalizeCell_eq_getD _, normalizeCell_eq_getD _,
    normalizeCell_eq_getD _, normalizeCell_eq_getD _, normalizeCell_eq_getD _,
    normalizeCell_eq_getD _, normalizeCell_eq_getD _, normalizeCell_eq_getD _,
    normalizeCell_eq_getD _, normalizeCell_eq_getD _, rfl,
    skipnaSum_map_getD rows _, skipnaSum_map_getD rows _,
    skipnaSum_map_getD rows _, ?_, ?_, ?_⟩ <;>
  · show (topLocations rows).map _ = _
    unfold topLocations
    rw [List.map_map]
    rfl

/-- A concrete fully populated row (the spec's row-A example). -/
def exRowA : ObsRow :=
  { month := 202412, gx := 1, gy := 2, lat := 25, lng := 121, hour := 8
    day_type := "平日", avg_total_users := 100
    avg_users_under_10min := some 30, avg_users_10_30min := some 50
    avg_users_over_30min := some 20, sex_1 := some 60, sex_2 := some 40
    age_1 := some 10, age_2 := some 10, age_3 := some 10, age_4 := some 10
    age_5 := some 10, age_6 := some 10, age_7 := some 10, age_8 := some 10
    age_9 := some 10, age_other := some 10 }

/-- A concrete row whose `avg_users_under_10min` cell is missing (NaN). -/
def nanRow : ObsRow :=
  { month := 202412, gx := 3, gy := 4, lat := 25, lng := 121, hour := 8
    day_type := "平日", avg_total_users := 5
    avg_users_under_10min := none, avg_users_10_30min := some 2
    avg_users_over_30min := some 3, sex_1 := some 50, sex_2 := some 50
    age_1 := some 10, age_2 := some 10, age_3 := some 10, age_4 := some 10
    age_5 := some 10, age_6 := some 10, age_7 := some 10, age_8 := some 10
    age_9 := some 10, age_other := some 10 }

/-- C4 counterexample: with one row whose `avg_users_under_10min` cell is
missing (NaN), the single `top_locations` entry surfaces the missing cell
(`float(nan)` is NaN) instead of `0.0`, so a NaN value appears in the
aggregate's output, refuting the claim as stated. -/
theorem top_locations_nan_passthrough :
    (get_context_summary (fun _ => some [nanRow]) 202412 8
        "平日").top_locations.map (fun e => e.dwell_under_10min) = [none] := by
  rfl

/-- Witness for C1 at a concrete one-row set. -/
theorem aggregate_weighted_percentages_witness :
    ([exRowA] ≠ ([] : List ObsRow)) ∧
    (get_context_summary (fun _ => some [exRowA]) 202412 8 "平日").total_users
      = (([exRowA] : List ObsRow).map (·.avg_total_users)).sum :=
  ⟨List.cons_ne_nil _ _,
    (aggregate_weighted_percentages [exRowA] 202412 8 "平日"
      (List.cons_ne_nil _ _)).1⟩

/-- Witness for C6 at a concrete one-row set with consistent buckets. -/
theorem duration_sums_to_total_witness :
    (0 : ℚ) <
      (get_context_summary (fun _ => some [exRowA]) 202412 8 "平日").total_users ∧
    (get_context_summary (fun _ => some [exRowA]) 202412 8
        "平日").duration_distribution.under_10min +
      (get_context_summary (fun _ => some [exRowA]) 202412 8
        "平日").duration_distribution.min_10_30 +
      (get_context_summary (fun _ => some [exRowA]) 202412 8
        "平日").duration_distribution.over_30min =
      (get_context_summary (fun _ => some [exRowA]) 202412 8
        "平日").total_users :=
  have hpos : (0 : ℚ) <
      (get_context_summary (fun _ => some [exRowA]) 202412 8 "平日").total_users := by
    rw [get_context_summary_some _ _ _ _ (List.cons_ne_nil _ _)]
    show (0 : ℚ) < (([exRowA] : List ObsRow).map (·.avg_total_users)).sum
    norm_num [exRowA]
  ⟨hpos,
    duration_sums_to_total [exRowA] 202412 8 "平日"
      (by
        intro r hr
        rw [List.mem_singleton] at hr
        subst hr
        norm_num [exRowA])
      hpos⟩

/-- Witness for C4 at a concrete one-row set. -/
theorem normalization_amended_witness :
    ([exRowA] ≠ ([] : List ObsRow)) ∧
    export_to_json (fun _ => some [exRowA]) 202412 8 "平日"
      = ([exRowA] : List ObsRow).map exportRecord :=
  ⟨List.cons_ne_nil _ _,
    (normalization_amended [exRowA] exRowA 202412 8 "平日"
      (List.cons_ne_nil _ _)).1⟩

/-- Concrete accepted request used by the C10 witness. -/
def exChatRequest : ChatRequest :=
  { message := "哪個時段最繁忙？"
    context := { month := 202412, hour := 8, day_type := "平日" }
    history := [{ role := "user", content := "hi", timestamp := none }] }

/-- Witness for C10 at a concrete accepted request. -/
theorem chatRequest_validation_bounds_witness :
    validChatRequest exChatRequest = true ∧
    exChatRequest.history.length ≤ 20 :=
  ⟨by decide, (chatRequest_validation_bounds exChatRequest (by decide)).2.2.1⟩

end Heatmap
